import Mathlib

/-!
Shallow embedding of `src/scraper/browser.py` (class `BrowserManager`).

The Playwright engine is external to this repository, so every engine call the
manager makes (start, launch, new_context, new_page, goto, wait_for_selector,
query_selector_all, inner_html, content, close/stop) is modelled by an explicit
outcome supplied as data: `Except.error msg` means the call raised, `Except.ok v`
means it returned `v`.  Handles are opaque numeric ids.  The manager's four
optional handle fields and its control flow (guards, try/except blocks, the
recursive retry in `get_properties`) are translated statement by statement from
the source.  Observability is modelled where a claim needs it: `close` returns
the ordered list of release calls it attempted, `get_properties` counts attempt
bodies and retry sleeps, `get_page_content` returns the warnings/errors logged.
-/

set_option autoImplicit false

deriving instance DecidableEq for Except

namespace Scraper

/-- Browser options read from `config.browser` (browser.py lines 52-66). -/
structure BrowserConfig where
  headless : Bool
  user_agent : String
  viewport_width : Nat
  viewport_height : Nat
  default_timeout : Nat
  navigation_timeout : Nat
deriving DecidableEq, Repr

/-- Selector strings read from `config.selectors` (lines 124-135). -/
structure SelectorsConfig where
  property_list : String
  property_item : String
deriving DecidableEq, Repr

/-- Retry policy read from `config.scraping` (lines 147-149). -/
structure ScrapingConfig where
  max_retries : Nat
  retry_delay : Nat
deriving DecidableEq, Repr

/-- The `Config` object handed to `BrowserManager.__init__` (line 18). -/
structure Config where
  browser : BrowserConfig
  selectors : SelectorsConfig
  scraping : ScrapingConfig
deriving DecidableEq, Repr

/-- The four optional handle fields of `BrowserManager` (lines 26-29):
`_playwright`, `_browser`, `_context`, `_page`, each holding an opaque handle id
when present. -/
structure BMState where
  _playwright : Option Nat
  _browser : Option Nat
  _context : Option Nat
  _page : Option Nat
deriving DecidableEq, Repr

/-- Field state established by `__init__` (lines 26-29): every handle is `None`. -/
def initState : BMState := ⟨none, none, none, none⟩

/-- True when every handle field is `None` (uninitialized / fully closed). -/
def allAbsent (s : BMState) : Bool :=
  s._playwright.isNone && s._browser.isNone && s._context.isNone && s._page.isNone

/-- True when every handle field is populated (the `Ready` session state). -/
def allPresent (s : BMState) : Bool :=
  s._playwright.isSome && s._browser.isSome && s._context.isSome && s._page.isSome

/-- The all-or-none handle invariant claimed by the spec's data model. -/
def allOrNone (s : BMState) : Bool := allAbsent s || allPresent s

/-! ### close() -/

/-- The four release calls `close()` can make, in source order (lines 79-93). -/
inductive CloseStep where
  | pageClose
  | contextClose
  | browserClose
  | playwrightStop
deriving DecidableEq, Repr

/-- Which of the four engine release calls would raise, modelling the external
engine's behaviour during one `close()` run. -/
structure CloseBehavior where
  pageCloseFails : Bool
  contextCloseFails : Bool
  browserCloseFails : Bool
  playwrightStopFails : Bool
deriving DecidableEq, Repr

/-- No release call raises during cleanup. -/
def noCleanupFailure (beh : CloseBehavior) : Bool :=
  !beh.pageCloseFails && !beh.contextCloseFails &&
    !beh.browserCloseFails && !beh.playwrightStopFails

/-- One guarded release step inside the single `try` of `close()`: skipped when
the handle is absent (`if self._page:` etc.), raising (`Except.error`) when the
engine call fails — in which case the handle is NOT cleared, because the
`self._x = None` assignment follows the `await` that raised — and clearing the
handle when the call succeeds.  Both outcomes carry the field state and the log
of release calls attempted so far. -/
def closeStep (present : Bool) (fails : Bool) (step : CloseStep)
    (clear : BMState → BMState) (s : BMState) (log : List CloseStep) :
    Except (BMState × List CloseStep) (BMState × List CloseStep) :=
  if present then
    if fails then Except.error (s, log ++ [step])
    else Except.ok (clear s, log ++ [step])
  else Except.ok (s, log)

/-- Body of the `try` block of `close()` (lines 78-95): release page, then
context, then browser, then stop the engine, in that order; the first raising
step aborts the remaining steps (`Except` bind short-circuits, exactly as an
exception leaves the `try` block). -/
def closeBody (beh : CloseBehavior) (s : BMState) :
    Except (BMState × List CloseStep) (BMState × List CloseStep) :=
  closeStep s._page.isSome beh.pageCloseFails CloseStep.pageClose
      (fun t => { t with _page := none }) s [] >>= fun r1 =>
  closeStep r1.1._context.isSome beh.contextCloseFails CloseStep.contextClose
      (fun t => { t with _context := none }) r1.1 r1.2 >>= fun r2 =>
  closeStep r2.1._browser.isSome beh.browserCloseFails CloseStep.browserClose
      (fun t => { t with _browser := none }) r2.1 r2.2 >>= fun r3 =>
  closeStep r3.1._playwright.isSome beh.playwrightStopFails CloseStep.playwrightStop
      (fun t => { t with _playwright := none }) r3.1 r3.2

/-- `close()` (lines 74-97): the whole release sequence sits in one `try`;
`except Exception` logs the error and swallows it, so the caller always gets a
normal return.  Result: the final field state and the ordered list of release
calls attempted. -/
def close (beh : CloseBehavior) (s : BMState) : BMState × List CloseStep :=
  match closeBody beh s with
  | Except.ok r => r
  | Except.error r => r

/-- Release calls `close()` attempts from state `s` when no step raises:
present handles, in page/context/browser/engine order. -/
def closeStepsOf (s : BMState) : List CloseStep :=
  (if s._page.isSome then [CloseStep.pageClose] else []) ++
  (if s._context.isSome then [CloseStep.contextClose] else []) ++
  (if s._browser.isSome then [CloseStep.browserClose] else []) ++
  (if s._playwright.isSome then [CloseStep.playwrightStop] else [])

/-! ### connect() -/

/-- Outcomes of the four engine acquisition calls `connect()` makes:
`async_playwright().start()` (line 37), `chromium.launch` (line 52),
`new_context` (line 56), `new_page` (line 64); `Except.ok h` yields handle id
`h`.  The two `set_default_*_timeout` calls (lines 65-66) touch no handle field
and are absorbed into the page step. -/
structure ConnectBehavior where
  startResult : Except String Nat
  launchResult : Except String Nat
  contextResult : Except String Nat
  pageResult : Except String Nat
deriving DecidableEq, Repr

/-- `_initialize_playwright` (lines 31-37): starts the engine only when the
`_playwright` handle is absent, so repeated calls do not relaunch it. -/
def initialize_playwright (cb : ConnectBehavior) (s : BMState) :
    Except (String × BMState) BMState :=
  match s._playwright with
  | some _ => Except.ok s
  | none =>
    match cb.startResult with
    | Except.ok h => Except.ok { s with _playwright := some h }
    | Except.error e => Except.error (e, s)

/-- Body of the `try` block of `connect()` (lines 46-68): initialize the engine,
guard `if not self._playwright: raise`, launch the browser, open the context,
open the page.  Each raise carries the fields as assigned so far. -/
def connectBody (cb : ConnectBehavior) (s : BMState) : Except (String × BMState) BMState :=
  match initialize_playwright cb s with
  | Except.error r => Except.error r
  | Except.ok s1 =>
    match s1._playwright with
    | none => Except.error ("Failed to initialize Playwright", s1)
    | some _ =>
      match cb.launchResult with
      | Except.error e => Except.error (e, s1)
      | Except.ok b =>
        match cb.contextResult with
        | Except.error e => Except.error (e, { s1 with _browser := some b })
        | Except.ok c =>
          match cb.pageResult with
          | Except.error e =>
            Except.error (e, { s1 with _browser := some b, _context := some c })
          | Except.ok p =>
            Except.ok { s1 with _browser := some b, _context := some c, _page := some p }

/-- `connect()` (lines 39-72): on any failure in the body, run `close()` as
best-effort teardown (line 71) and re-raise the original error; on success all
four handles are populated. -/
def connect (cb : ConnectBehavior) (beh : CloseBehavior) (s : BMState) :
    Except (String × BMState) BMState :=
  match connectBody cb s with
  | Except.ok s1 => Except.ok s1
  | Except.error (e, s1) => Except.error (e, (close beh s1).1)

/-! ### Shared fetch infrastructure -/

/-- True when the run of an engine call or of a whole attempt raised. -/
def isFailure {ε α : Type} (r : Except ε α) : Bool :=
  match r with
  | Except.error _ => true
  | Except.ok _ => false

/-- `needle` is a prefix of `hay` (character lists). -/
def isPrefixList (needle hay : List Char) : Bool :=
  match needle, hay with
  | [], _ => true
  | _ :: _, [] => false
  | a :: as, b :: bs => a == b && isPrefixList as bs

/-- `needle` occurs somewhere in `hay` (character lists). -/
def containsSub (needle : List Char) : List Char → Bool
  | [] => isPrefixList needle []
  | c :: rest => isPrefixList needle (c :: rest) || containsSub needle rest

/-- Python's `sub in s` substring test. -/
def containsSubstring (s sub : String) : Bool := containsSub sub.data s.data

/-- Message of the `RuntimeError` raised at browser.py line 115. -/
def notInitializedMsg : String := "Browser not initialized. Call connect() first."

/-- Errors `get_properties` can raise to its caller: the not-initialized
`RuntimeError` of line 115, or the propagated fetch error of line 151 after
retries are exhausted. -/
inductive FetchError where
  | notInitialized (msg : String)
  | fetchFailed (msg : String)
deriving DecidableEq, Repr

/-! ### get_properties() -/

/-- Outcomes of the engine calls one attempt of `get_properties` makes against
the page for the target URL.  `gotoResult` covers `page.goto` plus the fixed
settle sleep (lines 121-122); `waitResult` is `wait_for_selector` on the
list-container selector (lines 124-127): it can raise, return no element
(`ok none`, the falsy case of line 129), or return an element; `elements` is the
joint outcome of `query_selector_all` on the item selector and the per-element
`inner_html` captures (lines 133-138), yielding each element's inner HTML in DOM
order. -/
structure PageAttempt where
  gotoResult : Except String Unit
  waitResult : Except String (Option Unit)
  elements : Except String (List String)
deriving DecidableEq, Repr

/-- Body of the `try` block of `get_properties` (lines 119-144): navigate, wait
for the list container (empty result when it is falsy), query the items, keep
each non-empty inner HTML (`if html:` skips falsy i.e. empty strings). -/
def tryGetProperties (a : PageAttempt) : Except String (List String) :=
  match a.gotoResult with
  | Except.error e => Except.error e
  | Except.ok _ =>
    match a.waitResult with
    | Except.error e => Except.error e
    | Except.ok none => Except.ok []
    | Except.ok (some _) =>
      match a.elements with
      | Except.error e => Except.error e
      | Except.ok elems => Except.ok (elems.filter (fun html => html != ""))

/-- Instrumented result of a `get_properties` call: the returned list or raised
error, the number of attempt bodies executed, and the number of retry sleeps
(`asyncio.sleep(retry_delay / 1000)`, line 149) performed. -/
structure FetchOutcome where
  result : Except FetchError (List String)
  attempts : Nat
  delays : Nat
deriving DecidableEq, Repr

/-- `get_properties(url, retry_count)` (lines 99-151).  The page environment
`page` gives, per attempt index, the engine outcomes for the target URL.  The
guard of line 114 raises the not-initialized error when `_page` is absent; an
attempt-body error is retried with `retry_count + 1` after one retry sleep while
`retry_count < max_retries` (lines 145-150) and propagated once retries are
exhausted (line 151).  The method assigns no handle field, so the state is
returned unchanged alongside the outcome. -/
def get_properties (cfg : Config) (page : Nat → PageAttempt) (s : BMState)
    (retry_count : Nat) : FetchOutcome × BMState :=
  match s._page with
  | none => (⟨Except.error (FetchError.notInitialized notInitializedMsg), 0, 0⟩, s)
  | some _ =>
    match tryGetProperties (page retry_count) with
    | Except.ok lst => (⟨Except.ok lst, 1, 0⟩, s)
    | Except.error e =>
      if hlt : retry_count < cfg.scraping.max_retries then
        ((⟨(get_properties cfg page s (retry_count + 1)).1.result,
           (get_properties cfg page s (retry_count + 1)).1.attempts + 1,
           (get_properties cfg page s (retry_count + 1)).1.delays + 1⟩ : FetchOutcome),
         (get_properties cfg page s (retry_count + 1)).2)
      else
        (⟨Except.error (FetchError.fetchFailed e), 1, 0⟩, s)
termination_by cfg.scraping.max_retries - retry_count
decreasing_by all_goals omega

/-! ### get_page_content() -/

/-- Outcomes of the engine calls one run of `get_page_content` makes:
`page.goto` plus the settle sleep (lines 164-169) and `page.content`
(line 171). -/
structure ContentAttempt where
  gotoResult : Except String Unit
  contentResult : Except String String
deriving DecidableEq, Repr

/-- Observability events `get_page_content` can emit: the short-content warning
(line 175), the missing-marker warning (line 177), and the swallowed-error log
(line 181). -/
inductive ContentEvent where
  | warnTooShort
  | warnNoMarker
  | errorLogged (msg : String)
deriving DecidableEq, Repr

/-- Body of the `try` block of `get_page_content` (lines 163-179).  The method
has no initialization guard: when `_page` is `None`, `self._page.goto` raises
Python's `AttributeError` on `None`, modelled as a raise here.  The two sanity
checks are an `if`/`elif` producing at most one warning; the content is returned
unmodified either way.  The single attempt consulted is `a 0`: the method has no
retry loop. -/
def getPageContentBody (a : Nat → ContentAttempt) (s : BMState) :
    Except String (String × List ContentEvent) :=
  match s._page with
  | none => Except.error "AttributeError: NoneType object has no attribute goto"
  | some _ =>
    match (a 0).gotoResult with
    | Except.error e => Except.error e
    | Except.ok _ =>
      match (a 0).contentResult with
      | Except.error e => Except.error e
      | Except.ok content =>
        Except.ok (content,
          if content.length < 1000 then [ContentEvent.warnTooShort]
          else if !containsSubstring content "prices-summary" then
            [ContentEvent.warnNoMarker]
          else [])

/-- `get_page_content(url)` (lines 153-182): any raise inside the body is caught
by `except Exception` (line 180), logged, and turned into the no-content result
`None`.  The method assigns no handle field, so the state is returned unchanged
alongside the optional content and the emitted events. -/
def get_page_content (a : Nat → ContentAttempt) (s : BMState) :
    (Option String × List ContentEvent) × BMState :=
  match getPageContentBody a s with
  | Except.ok r => ((some r.1, r.2), s)
  | Except.error e => ((none, [ContentEvent.errorLogged e]), s)

/-! ### Unfolding lemmas for `get_properties` -/

/-- Guard of line 114: with `_page` absent the not-initialized error is raised
before any attempt. -/
theorem get_properties_notInit (cfg : Config) (page : Nat → PageAttempt) (s : BMState)
    (rc : Nat) (hs : s._page = none) :
    get_properties cfg page s rc =
      (⟨Except.error (FetchError.notInitialized notInitializedMsg), 0, 0⟩, s) := by
  rw [get_properties, hs]

/-- A successful attempt body returns its list at once: one attempt, no sleep. -/
theorem get_properties_attemptOk (cfg : Config) (page : Nat → PageAttempt) (s : BMState)
    (rc pg : Nat) (lst : List String) (hs : s._page = some pg)
    (ht : tryGetProperties (page rc) = Except.ok lst) :
    get_properties cfg page s rc = (⟨Except.ok lst, 1, 0⟩, s) := by
  rw [get_properties, hs, ht]

/-- A failing attempt body below the retry limit sleeps once and recurses with
`retry_count + 1` (lines 147-150). -/
theorem get_properties_attemptErrRetry (cfg : Config) (page : Nat → PageAttempt)
    (s : BMState) (rc pg : Nat) (e : String) (hs : s._page = some pg)
    (ht : tryGetProperties (page rc) = Except.error e)
    (hlt : rc < cfg.scraping.max_retries) :
    get_properties cfg page s rc =
      (⟨(get_properties cfg page s (rc + 1)).1.result,
        (get_properties cfg page s (rc + 1)).1.attempts + 1,
        (get_properties cfg page s (rc + 1)).1.delays + 1⟩,
       (get_properties cfg page s (rc + 1)).2) := by
  conv_lhs => rw [get_properties, hs, ht]
  simp [hlt]

/-- A failing attempt body at the retry limit propagates the error (line 151). -/
theorem get_properties_attemptErrStop (cfg : Config) (page : Nat → PageAttempt)
    (s : BMState) (rc pg : Nat) (e : String) (hs : s._page = some pg)
    (ht : tryGetProperties (page rc) = Except.error e)
    (hge : ¬ rc < cfg.scraping.max_retries) :
    get_properties cfg page s rc = (⟨Except.error (FetchError.fetchFailed e), 1, 0⟩, s) := by
  rw [get_properties, hs, ht]
  simp [hge]

/-- `get_properties` assigns no handle field: the state component of the result
is the input state, on every path of the recursion. -/
theorem get_properties_state (cfg : Config) (page : Nat → PageAttempt) (s : BMState)
    (rc : Nat) : (get_properties cfg page s rc).2 = s := by
  cases hs : s._page with
  | none => rw [get_properties_notInit cfg page s rc hs]
  | some pg =>
    cases ht : tryGetProperties (page rc) with
    | ok lst => rw [get_properties_attemptOk cfg page s rc pg lst hs ht]
    | error e =>
      by_cases hlt : rc < cfg.scraping.max_retries
      · rw [get_properties_attemptErrRetry cfg page s rc pg e hs ht hlt]
        exact get_properties_state cfg page s (rc + 1)
      · rw [get_properties_attemptErrStop cfg page s rc pg e hs ht hlt]
termination_by cfg.scraping.max_retries - rc
decreasing_by omega

/-- With every attempt failing, the call from `retry_count = rc` raises after
`max_retries - rc + 1` attempt bodies and `max_retries - rc` retry sleeps. -/
theorem get_properties_allFail (cfg : Config) (page : Nat → PageAttempt) (s : BMState)
    (pg : Nat) (hs : s._page = some pg)
    (hfail : ∀ n, isFailure (tryGetProperties (page n)) = true) (rc : Nat) :
    isFailure (get_properties cfg page s rc).1.result = true ∧
    (get_properties cfg page s rc).1.attempts = cfg.scraping.max_retries - rc + 1 ∧
    (get_properties cfg page s rc).1.delays = cfg.scraping.max_retries - rc := by
  cases ht : tryGetProperties (page rc) with
  | ok lst =>
    have hc := hfail rc
    rw [ht] at hc
    simp [isFailure] at hc
  | error e =>
    by_cases hlt : rc < cfg.scraping.max_retries
    · have ih := get_properties_allFail cfg page s pg hs hfail (rc + 1)
      rw [get_properties_attemptErrRetry cfg page s rc pg e hs ht hlt]
      refine ⟨ih.1, ?_, ?_⟩
      · simp only []
        rw [ih.2.1]
        omega
      · simp only []
        rw [ih.2.2]
        omega
    · rw [get_properties_attemptErrStop cfg page s rc pg e hs ht hlt]
      refine ⟨rfl, ?_, ?_⟩ <;> simp <;> omega
termination_by cfg.scraping.max_retries - rc
decreasing_by omega

/-- With attempts `rc, ..., k-1` failing and attempt `k ≤ max_retries`
succeeding with `lst`, the call from `rc ≤ k` returns `lst` after `k - rc + 1`
attempt bodies and exactly `k - rc` retry sleeps. -/
theorem get_properties_failThenOk (cfg : Config) (page : Nat → PageAttempt) (s : BMState)
    (pg : Nat) (hs : s._page = some pg) (k : Nat) (lst : List String)
    (hkm : k ≤ cfg.scraping.max_retries)
    (hok : tryGetProperties (page k) = Except.ok lst) (rc : Nat) (hrc : rc ≤ k)
    (hfail : ∀ n, rc ≤ n → n < k → isFailure (tryGetProperties (page n)) = true) :
    (get_properties cfg page s rc).1.result = Except.ok lst ∧
    (get_properties cfg page s rc).1.attempts = k - rc + 1 ∧
    (get_properties cfg page s rc).1.delays = k - rc := by
  rcases Nat.eq_or_lt_of_le hrc with heq | hlt
  · subst heq
    rw [get_properties_attemptOk cfg page s rc pg lst hs hok]
    simp
  · cases ht : tryGetProperties (page rc) with
    | ok l =>
      have hc := hfail rc le_rfl hlt
      rw [ht] at hc
      simp [isFailure] at hc
    | error e =>
      have hltm : rc < cfg.scraping.max_retries := lt_of_lt_of_le hlt hkm
      have ih := get_properties_failThenOk cfg page s pg hs k lst hkm hok (rc + 1) hlt
        (fun n h1 h2 => hfail n (by omega) h2)
      rw [get_properties_attemptErrRetry cfg page s rc pg e hs ht hltm]
      refine ⟨ih.1, ?_, ?_⟩
      · simp only []
        rw [ih.2.1]
        omega
      · simp only []
        rw [ih.2.2]
        omega
termination_by k - rc
decreasing_by omega

/-! ### Lemmas for `close` and `connect` -/

/-- When no release call raises, `close` clears all four handles and attempts
exactly the present handles' release calls in source order. -/
theorem close_noFail (beh : CloseBehavior) (s : BMState)
    (h : noCleanupFailure beh = true) :
    close beh s = (initState, closeStepsOf s) := by
  obtain ⟨bp, bc, bb, bw⟩ := beh
  simp only [noCleanupFailure, Bool.and_eq_true, Bool.not_eq_true'] at h
  obtain ⟨⟨⟨h1, h2⟩, h3⟩, h4⟩ := h
  subst h1; subst h2; subst h3; subst h4
  obtain ⟨p, b, c, g⟩ := s
  cases p <;> cases b <;> cases c <;> cases g <;>
    simp [close, closeBody, closeStep, closeStepsOf, initState, Bind.bind, Except.bind]

/-- A raising `page.close()` aborts the whole release sequence: only the page
release call is attempted and no handle field is cleared. -/
theorem close_pageFailStops (beh : CloseBehavior) (s : BMState)
    (hp : s._page.isSome = true) (hf : beh.pageCloseFails = true) :
    close beh s = (s, [CloseStep.pageClose]) := by
  simp [close, closeBody, closeStep, hp, hf, Bind.bind, Except.bind]

/-- The `except` clause of `close()` (lines 96-97): when the body raises, the
raise is swallowed and `close` returns the fields and log as they were at the
raise point. -/
theorem close_catches (beh : CloseBehavior) (s : BMState)
    (r : BMState × List CloseStep) (h : closeBody beh s = Except.error r) :
    close beh s = r := by
  simp [close, h]

/-- A successful `connectBody` ends with all four handles populated: the engine
guard of lines 48-49 and the assignments of lines 52-64 leave no handle empty. -/
theorem connectBody_allPresent (cb : ConnectBehavior) (s : BMState) (s' : BMState)
    (h : connectBody cb s = Except.ok s') : allPresent s' = true := by
  obtain ⟨rs, rl, rctx, rp⟩ := cb
  obtain ⟨p, b, c, g⟩ := s
  cases p <;> cases rs <;> cases rl <;> cases rctx <;> cases rp <;>
    simp_all [connectBody, initialize_playwright] <;> subst h <;> simp [allPresent]

/-- `connect` on a successful body returns the body's state unchanged. -/
theorem connect_def_ok (cb : ConnectBehavior) (beh : CloseBehavior) (s s1 : BMState)
    (hb : connectBody cb s = Except.ok s1) : connect cb beh s = Except.ok s1 := by
  unfold connect
  rw [hb]

/-- `connect` on a failing body runs `close` as teardown and re-raises the
original error with the torn-down state. -/
theorem connect_def_error (cb : ConnectBehavior) (beh : CloseBehavior) (s : BMState)
    (e1 : String) (s1 : BMState) (hb : connectBody cb s = Except.error (e1, s1)) :
    connect cb beh s = Except.error (e1, (close beh s1).1) := by
  unfold connect
  rw [hb]

/-- A successful `connect()` returns with the session `Ready`: all four handles
populated. -/
theorem connect_ok_allPresent (cb : ConnectBehavior) (beh : CloseBehavior)
    (s s' : BMState) (h : connect cb beh s = Except.ok s') : allPresent s' = true := by
  cases hb : connectBody cb s with
  | ok s1 =>
    rw [connect_def_ok cb beh s s1 hb] at h
    simp only [Except.ok.injEq] at h
    subst h
    exact connectBody_allPresent cb s s1 hb
  | error r =>
    obtain ⟨e1, s1⟩ := r
    rw [connect_def_error cb beh s e1 s1 hb] at h
    simp at h

/-- A failing `connect()` whose teardown raises nowhere re-raises the original
error with every handle cleared. -/
theorem connect_error_state (cb : ConnectBehavior) (beh : CloseBehavior)
    (s : BMState) (e : String) (s' : BMState) (hbeh : noCleanupFailure beh = true)
    (h : connect cb beh s = Except.error (e, s')) : s' = initState := by
  cases hb : connectBody cb s with
  | ok s1 =>
    rw [connect_def_ok cb beh s s1 hb] at h
    simp at h
  | error r =>
    obtain ⟨e1, s1⟩ := r
    rw [connect_def_error cb beh s e1 s1 hb, close_noFail beh s1 hbeh] at h
    simp only [Except.error.injEq, Prod.mk.injEq] at h
    exact h.2.symm

/-! ### Claim C1 -/

/-- Claim C1 counterexample: calling `get_page_content` on a fresh
(never-connected) manager does not fail with a not-initialized error — the
`AttributeError` raised by `None.goto` is swallowed by the method's
`except Exception` and the call returns the normal no-content result. -/
theorem getPageContent_before_connect_returns_none :
    get_page_content (fun _ => ⟨Except.ok (), Except.ok "<html></html>"⟩) initState =
      ((none, [ContentEvent.errorLogged
        "AttributeError: NoneType object has no attribute goto"]), initState) := by
  rfl

/-- Claim C1 (amended): before a successful `connect()` (page handle absent),
`get_properties` fails with the not-initialized `RuntimeError` whose message
names the required prior call `connect()`, while `get_page_content` does not
fail at all: it swallows the null-handle error and returns the no-content
result `None`. -/
theorem fetch_before_connect (cfg : Config) (page : Nat → PageAttempt)
    (a : Nat → ContentAttempt) (s : BMState) (rc : Nat) (hs : s._page = none) :
    get_properties cfg page s rc =
      (⟨Except.error (FetchError.notInitialized notInitializedMsg), 0, 0⟩, s) ∧
    containsSubstring notInitializedMsg "connect()" = true ∧
    (get_page_content a s).1.1 = none := by
  refine ⟨get_properties_notInit cfg page s rc hs, rfl, ?_⟩
  simp [get_page_content, getPageContentBody, hs]

/-- Witness for `fetch_before_connect` at the freshly-constructed state. -/
theorem fetch_before_connect_witness :
    get_properties ⟨⟨true, "agent", 1280, 800, 10000, 30000⟩, ⟨".list", ".item"⟩, ⟨2, 1000⟩⟩
        (fun _ => ⟨Except.ok (), Except.ok (some ()), Except.ok ["x"]⟩) initState 0 =
      (⟨Except.error (FetchError.notInitialized notInitializedMsg), 0, 0⟩, initState) ∧
    containsSubstring notInitializedMsg "connect()" = true ∧
    (get_page_content (fun _ => ⟨Except.ok (), Except.ok "page"⟩) initState).1.1 = none :=
  fetch_before_connect _ _ _ initState 0 rfl

/-! ### Claim C2 -/

/-- Claim C2: when navigation succeeds and the wait for the list-container
selector yields no element (the falsy result of line 129), `get_properties`
returns the empty list from a single attempt: no error, no retry sleep. -/
theorem getProperties_waitAbsent_empty (cfg : Config) (page : Nat → PageAttempt)
    (s : BMState) (rc pg : Nat) (hs : s._page = some pg)
    (hg : (page rc).gotoResult = Except.ok ())
    (hw : (page rc).waitResult = Except.ok none) :
    get_properties cfg page s rc = (⟨Except.ok [], 1, 0⟩, s) := by
  apply get_properties_attemptOk cfg page s rc pg [] hs
  unfold tryGetProperties
  rw [hg, hw]

/-- Witness for `getProperties_waitAbsent_empty` on a concrete ready session. -/
theorem getProperties_waitAbsent_empty_witness :
    get_properties ⟨⟨true, "agent", 1280, 800, 10000, 30000⟩, ⟨".list", ".item"⟩, ⟨2, 1000⟩⟩
        (fun _ => ⟨Except.ok (), Except.ok none, Except.ok ["a", "b"]⟩)
        ⟨some 1, some 2, some 3, some 4⟩ 0 =
      (⟨Except.ok [], 1, 0⟩, ⟨some 1, some 2, some 3, some 4⟩) :=
  getProperties_waitAbsent_empty _ _ _ 0 4 rfl rfl rfl

/-! ### Claim C3 -/

/-- Environment with `max_retries = 2` used by the retry-policy witness. -/
def retryCfg : Config :=
  ⟨⟨true, "agent", 1280, 800, 10000, 30000⟩, ⟨".list", ".item"⟩, ⟨2, 1000⟩⟩

/-- Ready session state used by the retry-policy witness. -/
def retryReady : BMState := ⟨some 1, some 2, some 3, some 4⟩

/-- Page failing navigation on every attempt. -/
def retryPageFail : Nat → PageAttempt :=
  fun _ => ⟨Except.error "nav timeout", Except.ok none, Except.ok []⟩

/-- Page failing navigation on attempts 0 and 1, succeeding from attempt 2. -/
def retryPageMix : Nat → PageAttempt := fun n =>
  if n < 2 then ⟨Except.error "nav timeout", Except.ok none, Except.ok []⟩
  else ⟨Except.ok (), Except.ok (some ()), Except.ok ["frag"]⟩

/-- Claim C3: the retry policy of `get_properties`.  A failing attempt below
`max_retries` performs one retry sleep (of the constant configured delay) and
re-runs the whole operation with `retry_count + 1`; at the limit the error
propagates.  Hence an always-failing page raises after exactly
`max_retries + 1` attempt bodies, and with `max_retries = 2` a page failing on
attempts 0 and 1 then succeeding on attempt 2 returns successfully after
exactly 2 retry sleeps. -/
theorem getProperties_retry_policy (cfg : Config) (page : Nat → PageAttempt)
    (s : BMState) (pg : Nat) (hs : s._page = some pg) :
    (∀ rc e, tryGetProperties (page rc) = Except.error e →
      rc < cfg.scraping.max_retries →
      get_properties cfg page s rc =
        (⟨(get_properties cfg page s (rc + 1)).1.result,
          (get_properties cfg page s (rc + 1)).1.attempts + 1,
          (get_properties cfg page s (rc + 1)).1.delays + 1⟩, s)) ∧
    (∀ rc e, tryGetProperties (page rc) = Except.error e →
      ¬ rc < cfg.scraping.max_retries →
      get_properties cfg page s rc =
        (⟨Except.error (FetchError.fetchFailed e), 1, 0⟩, s)) ∧
    ((∀ n, isFailure (tryGetProperties (page n)) = true) →
      isFailure (get_properties cfg page s 0).1.result = true ∧
      (get_properties cfg page s 0).1.attempts = cfg.scraping.max_retries + 1) ∧
    (∀ lst, cfg.scraping.max_retries = 2 →
      isFailure (tryGetProperties (page 0)) = true →
      isFailure (tryGetProperties (page 1)) = true →
      tryGetProperties (page 2) = Except.ok lst →
      (get_properties cfg page s 0).1.result = Except.ok lst ∧
      (get_properties cfg page s 0).1.delays = 2) := by
  refine ⟨?_, ?_, ?_, ?_⟩
  · intro rc e ht hlt
    rw [get_properties_attemptErrRetry cfg page s rc pg e hs ht hlt,
      get_properties_state]
  · intro rc e ht hge
    exact get_properties_attemptErrStop cfg page s rc pg e hs ht hge
  · intro hfail
    have h := get_properties_allFail cfg page s pg hs hfail 0
    refine ⟨h.1, ?_⟩
    rw [h.2.1]
    omega
  · intro lst hm h0 h1 hok2
    have hfail : ∀ n, 0 ≤ n → n < 2 → isFailure (tryGetProperties (page n)) = true := by
      intro n _ hn
      interval_cases n
      · exact h0
      · exact h1
    have h := get_properties_failThenOk cfg page s pg hs 2 lst (by omega) hok2 0
      (by omega) hfail
    exact ⟨h.1, by rw [h.2.2]⟩

/-- Witness for `getProperties_retry_policy`: always-failing page raises after
3 attempts with `max_retries = 2`; fail-fail-succeed page returns after exactly
2 retry sleeps. -/
theorem getProperties_retry_policy_witness :
    (isFailure (get_properties retryCfg retryPageFail retryReady 0).1.result = true ∧
     (get_properties retryCfg retryPageFail retryReady 0).1.attempts = 3) ∧
    ((get_properties retryCfg retryPageMix retryReady 0).1.result = Except.ok ["frag"] ∧
     (get_properties retryCfg retryPageMix retryReady 0).1.delays = 2) := by
  constructor
  · exact (getProperties_retry_policy retryCfg retryPageFail retryReady 4 rfl).2.2.1
      (fun n => rfl)
  · exact (getProperties_retry_policy retryCfg retryPageMix retryReady 4 rfl).2.2.2
      ["frag"] rfl rfl rfl rfl

/-! ### Claim C4 -/

/-- Claim C4: on a successful attempt whose item query yields `elems` (inner
HTML per matched element, DOM order), `get_properties` returns exactly the
non-empty entries of `elems`, in order — a sublist of `elems` of length equal
to the count of non-empty entries, every member non-empty. -/
theorem getProperties_filter_nonempty (cfg : Config) (page : Nat → PageAttempt)
    (s : BMState) (rc pg : Nat) (elems : List String) (hs : s._page = some pg)
    (hg : (page rc).gotoResult = Except.ok ())
    (hw : (page rc).waitResult = Except.ok (some ()))
    (he : (page rc).elements = Except.ok elems) :
    get_properties cfg page s rc =
      (⟨Except.ok (elems.filter (fun html => html != "")), 1, 0⟩, s) ∧
    (elems.filter (fun html => html != "")).Sublist elems ∧
    (elems.filter (fun html => html != "")).length =
      elems.countP (fun html => html != "") ∧
    ∀ html ∈ elems.filter (fun html => html != ""), html ≠ "" := by
  refine ⟨?_, List.filter_sublist _, (List.countP_eq_length_filter _ _).symm, ?_⟩
  · apply get_properties_attemptOk cfg page s rc pg _ hs
    unfold tryGetProperties
    rw [hg, hw, he]
  · intro html hmem
    have hp := List.of_mem_filter hmem
    simpa using hp

/-- Witness for `getProperties_filter_nonempty`: of three matched elements one
has empty inner HTML; exactly the two non-empty fragments are returned, in
order. -/
theorem getProperties_filter_nonempty_witness :
    get_properties ⟨⟨true, "agent", 1280, 800, 10000, 30000⟩, ⟨".list", ".item"⟩, ⟨2, 1000⟩⟩
        (fun _ => ⟨Except.ok (), Except.ok (some ()),
          Except.ok ["<li>a</li>", "", "<li>b</li>"]⟩)
        ⟨some 1, some 2, some 3, some 4⟩ 0 =
      (⟨Except.ok ["<li>a</li>", "<li>b</li>"], 1, 0⟩,
       ⟨some 1, some 2, some 3, some 4⟩) := by
  rw [(getProperties_filter_nonempty _ _ _ 0 4 ["<li>a</li>", "", "<li>b</li>"]
    rfl rfl rfl rfl).1]
  decide

/-! ### Claim C5 -/

/-- Claim C5 counterexample: with the page release raising, `close()` attempts
no further release call (the context release is absent from the attempted-call
log) and clears no handle field — the context handle survives, contradicting
the claim that remaining steps are still attempted and all fields cleared. -/
theorem close_pageFail_not_all_cleared :
    (close ⟨true, false, false, false⟩ ⟨some 1, some 2, some 3, some 4⟩).1._context =
      some 3 ∧
    CloseStep.contextClose ∉
      (close ⟨true, false, false, false⟩ ⟨some 1, some 2, some 3, some 4⟩).2 := by
  decide

/-- Claim C5 (amended): `close()` releases page, then context, then browser,
then stops the engine, in that order, skipping steps whose handle is absent,
and when no release step fails it clears all four handle fields — including
when it runs as teardown inside a failed `connect()`.  But the whole sequence
sits in a single guard: a failure in one release step aborts the remaining
steps (they are not attempted) and leaves the handle fields uncleared. -/
theorem close_release_order (beh : CloseBehavior) (cb : ConnectBehavior)
    (s : BMState) :
    (noCleanupFailure beh = true → close beh s = (initState, closeStepsOf s)) ∧
    (beh.pageCloseFails = true → s._page.isSome = true →
      close beh s = (s, [CloseStep.pageClose])) ∧
    (noCleanupFailure beh = true → ∀ e s', connect cb beh s = Except.error (e, s') →
      s' = initState) := by
  refine ⟨fun h => close_noFail beh s h,
    fun hf hp => close_pageFailStops beh s hp hf,
    fun h e s' hc => connect_error_state cb beh s e s' h hc⟩

/-- Witness for `close_release_order`: a no-failure close from a ready state
clears everything attempting all four releases in order; a close whose page
release fails stops after that one call with the state intact. -/
theorem close_release_order_witness :
    close ⟨false, false, false, false⟩ ⟨some 1, some 2, some 3, some 4⟩ =
      (initState, [CloseStep.pageClose, CloseStep.contextClose,
        CloseStep.browserClose, CloseStep.playwrightStop]) ∧
    close ⟨true, false, false, false⟩ ⟨some 9, some 8, some 7, some 6⟩ =
      (⟨some 9, some 8, some 7, some 6⟩, [CloseStep.pageClose]) := by
  constructor
  · rw [(close_release_order ⟨false, false, false, false⟩
      ⟨Except.ok 1, Except.ok 2, Except.ok 3, Except.ok 4⟩
      ⟨some 1, some 2, some 3, some 4⟩).1 rfl]
    rfl
  · exact (close_release_order ⟨true, false, false, false⟩
      ⟨Except.ok 1, Except.ok 2, Except.ok 3, Except.ok 4⟩
      ⟨some 9, some 8, some 7, some 6⟩).2.1 rfl rfl

/-! ### Claim C6 -/

/-- Claim C6: `close()` never throws and is idempotent.  A raise inside the
release sequence is swallowed (`close` returns normally with the state at the
raise point); calling it with every handle absent — no prior `connect()` — is a
no-op; and calling it a second time after a fully successful close is again a
no-op that completes without raising, whatever the engine would do. -/
theorem close_idempotent_never_throws (beh beh' : CloseBehavior) (s : BMState)
    (r : BMState × List CloseStep) :
    (closeBody beh s = Except.error r → close beh s = r) ∧
    (allAbsent s = true → close beh s = (s, [])) ∧
    (noCleanupFailure beh = true →
      close beh' (close beh s).1 = ((close beh s).1, [])) := by
  refine ⟨close_catches beh s r, ?_, ?_⟩
  · intro h
    obtain ⟨p, b, c, g⟩ := s
    simp only [allAbsent, Bool.and_eq_true, Option.isNone_iff_eq_none] at h
    obtain ⟨⟨⟨h1, h2⟩, h3⟩, h4⟩ := h
    subst h1; subst h2; subst h3; subst h4
    rfl
  · intro h
    rw [close_noFail beh s h]
    rfl

/-- Witness for `close_idempotent_never_throws`: a close whose every release
call would fail still returns normally on a fresh manager; closing twice after
a successful close is a no-op; a mid-sequence raise is swallowed. -/
theorem close_idempotent_never_throws_witness :
    close ⟨true, true, true, true⟩ initState = (initState, []) ∧
    close ⟨true, true, true, true⟩
        (close ⟨false, false, false, false⟩ ⟨some 1, some 2, some 3, some 4⟩).1 =
      ((close ⟨false, false, false, false⟩ ⟨some 1, some 2, some 3, some 4⟩).1, []) ∧
    close ⟨true, false, false, false⟩ ⟨some 1, some 2, some 3, some 4⟩ =
      (⟨some 1, some 2, some 3, some 4⟩, [CloseStep.pageClose]) := by
  refine ⟨(close_idempotent_never_throws ⟨true, true, true, true⟩
      ⟨true, true, true, true⟩ initState (initState, [])).2.1 rfl,
    (close_idempotent_never_throws ⟨false, false, false, false⟩
      ⟨true, true, true, true⟩ ⟨some 1, some 2, some 3, some 4⟩ (initState, [])).2.2 rfl,
    (close_idempotent_never_throws ⟨true, false, false, false⟩
      ⟨true, true, true, true⟩ ⟨some 1, some 2, some 3, some 4⟩
      (⟨some 1, some 2, some 3, some 4⟩, [CloseStep.pageClose])).1 rfl⟩

/-! ### Claim C7 -/

/-- Claim C7: `get_page_content` never throws to the caller.  Any raise during
navigation or capture is logged and turned into the no-content result `None`;
on success the captured content is returned unmodified — even below the
1000-character threshold, where only a warning is emitted; and the call
performs no retries: its outcome depends only on the first attempt. -/
theorem getPageContent_best_effort (a a' : Nat → ContentAttempt) (s : BMState)
    (e content : String) (ev : List ContentEvent) (pg : Nat) :
    (getPageContentBody a s = Except.error e →
      get_page_content a s = ((none, [ContentEvent.errorLogged e]), s)) ∧
    (getPageContentBody a s = Except.ok (content, ev) →
      (get_page_content a s).1.1 = some content) ∧
    (s._page = some pg → (a 0).gotoResult = Except.ok () →
      (a 0).contentResult = Except.ok content → content.length < 1000 →
      get_page_content a s = ((some content, [ContentEvent.warnTooShort]), s)) ∧
    (a 0 = a' 0 → get_page_content a s = get_page_content a' s) := by
  refine ⟨?_, ?_, ?_, ?_⟩
  · intro h
    simp [get_page_content, h]
  · intro h
    simp [get_page_content, h]
  · intro hs hg hc hlen
    simp [get_page_content, getPageContentBody, hs, hg, hc, hlen]
  · intro h
    simp [get_page_content, getPageContentBody, h]

/-- Witness for `getPageContent_best_effort`: a raising navigation yields the
logged no-content result; content of length 5 (below the 1000 threshold) is
returned unmodified alongside the short-content warning. -/
theorem getPageContent_best_effort_witness :
    get_page_content (fun _ => ⟨Except.error "net down", Except.ok "x"⟩)
        ⟨some 1, some 2, some 3, some 4⟩ =
      ((none, [ContentEvent.errorLogged "net down"]), ⟨some 1, some 2, some 3, some 4⟩) ∧
    get_page_content (fun _ => ⟨Except.ok (), Except.ok "short"⟩)
        ⟨some 1, some 2, some 3, some 4⟩ =
      ((some "short", [ContentEvent.warnTooShort]), ⟨some 1, some 2, some 3, some 4⟩) := by
  refine ⟨(getPageContent_best_effort (fun _ => ⟨Except.error "net down", Except.ok "x"⟩)
      (fun _ => ⟨Except.error "net down", Except.ok "x"⟩)
      ⟨some 1, some 2, some 3, some 4⟩ "net down" "x" [] 4).1 rfl,
    (getPageContent_best_effort (fun _ => ⟨Except.ok (), Except.ok "short"⟩)
      (fun _ => ⟨Except.ok (), Except.ok "short"⟩)
      ⟨some 1, some 2, some 3, some 4⟩ "e" "short" [] 4).2.2.1 rfl rfl rfl (by decide)⟩

/-! ### Claim C8 -/

/-- Claim C8 counterexample: a `connect()` that fails at browser launch and
whose teardown fails at the engine stop returns to the caller with the engine
handle still set and the other three absent — a partial handle state, neither
all absent nor all present. -/
theorem connect_teardown_exposes_mixed_state :
    connect ⟨Except.ok 1, Except.error "launch failed", Except.ok 2, Except.ok 3⟩
        ⟨false, false, false, true⟩ initState =
      Except.error ("launch failed", ⟨some 1, none, none, none⟩) ∧
    allOrNone ⟨some 1, none, none, none⟩ = false := by
  decide

/-- Claim C8 (amended): provided no release step fails during cleanup, the
all-or-none handle invariant holds whenever control returns to the caller: a
successful `connect()` leaves all four handles present, a failing `connect()`
leaves all absent after teardown, `close()` leaves all absent, and both fetch
operations return the handles exactly as they found them. -/
theorem all_or_none_invariant (cb : ConnectBehavior) (beh : CloseBehavior)
    (cfg : Config) (page : Nat → PageAttempt) (a : Nat → ContentAttempt)
    (s : BMState) (rc : Nat) (hbeh : noCleanupFailure beh = true)
    (hinv : allOrNone s = true) :
    (∀ s', connect cb beh s = Except.ok s' → allOrNone s' = true) ∧
    (∀ e s', connect cb beh s = Except.error (e, s') → allOrNone s' = true) ∧
    allOrNone (close beh s).1 = true ∧
    allOrNone (get_properties cfg page s rc).2 = true ∧
    allOrNone (get_page_content a s).2 = true := by
  refine ⟨?_, ?_, ?_, ?_, ?_⟩
  · intro s' h
    simp [allOrNone, connect_ok_allPresent cb beh s s' h]
  · intro e s' h
    rw [connect_error_state cb beh s e s' hbeh h]
    rfl
  · rw [close_noFail beh s hbeh]
    rfl
  · rw [get_properties_state]
    exact hinv
  · cases hb : getPageContentBody a s <;> simp [get_page_content, hb, hinv]

/-- Witness for `all_or_none_invariant` on a ready state with a well-behaved
engine. -/
theorem all_or_none_invariant_witness :
    allOrNone (close ⟨false, false, false, false⟩ ⟨some 1, some 2, some 3, some 4⟩).1 =
      true ∧
    allOrNone (get_page_content (fun _ => ⟨Except.ok (), Except.ok "c"⟩)
      ⟨some 1, some 2, some 3, some 4⟩).2 = true := by
  have h := all_or_none_invariant ⟨Except.ok 1, Except.ok 2, Except.ok 3, Except.ok 4⟩
    ⟨false, false, false, false⟩
    ⟨⟨true, "agent", 1280, 800, 10000, 30000⟩, ⟨".list", ".item"⟩, ⟨2, 1000⟩⟩
    (fun _ => ⟨Except.ok (), Except.ok (some ()), Except.ok ["x"]⟩)
    (fun _ => ⟨Except.ok (), Except.ok "c"⟩)
    ⟨some 1, some 2, some 3, some 4⟩ 0 rfl rfl
  exact ⟨h.2.2.1, h.2.2.2.2⟩

/-! ### Claim C9 -/

/-- Claim C9 counterexample: a session taken through a successful `connect()`
and a full `close()` (the `Closed` state, all handles cleared) reaches `Ready`
again by a further `connect()` on the same instance: the cleared engine handle
makes `_initialize_playwright` restart the engine and all four handles are
repopulated.  No new manager construction is needed. -/
theorem session_reusable_after_close :
    connect ⟨Except.ok 1, Except.ok 2, Except.ok 3, Except.ok 4⟩
        ⟨false, false, false, false⟩ initState =
      Except.ok ⟨some 1, some 2, some 3, some 4⟩ ∧
    (close ⟨false, false, false, false⟩ ⟨some 1, some 2, some 3, some 4⟩).1 =
      initState ∧
    connect ⟨Except.ok 5, Except.ok 6, Except.ok 7, Except.ok 8⟩
        ⟨false, false, false, false⟩
        (close ⟨false, false, false, false⟩ ⟨some 1, some 2, some 3, some 4⟩).1 =
      Except.ok ⟨some 5, some 6, some 7, some 8⟩ ∧
    allPresent ⟨some 5, some 6, some 7, some 8⟩ = true := by
  decide

/-- Claim C9 (amended): the code does not prevent reuse after `close()`: from
any fully-closed state (all handles absent — exactly what a completed `close()`
leaves), a `connect()` whose engine calls succeed returns the same instance to
`Ready` with all four handles populated. -/
theorem connect_after_close_ready (cb : ConnectBehavior) (beh : CloseBehavior)
    (s : BMState) (h1 h2 h3 h4 : Nat) (hs : allAbsent s = true)
    (c1 : cb.startResult = Except.ok h1) (c2 : cb.launchResult = Except.ok h2)
    (c3 : cb.contextResult = Except.ok h3) (c4 : cb.pageResult = Except.ok h4) :
    connect cb beh s = Except.ok ⟨some h1, some h2, some h3, some h4⟩ ∧
    allPresent ⟨some h1, some h2, some h3, some h4⟩ = true := by
  obtain ⟨p, b, c, g⟩ := s
  simp only [allAbsent, Bool.and_eq_true, Option.isNone_iff_eq_none] at hs
  obtain ⟨⟨⟨hp, hb⟩, hc⟩, hg⟩ := hs
  subst hp; subst hb; subst hc; subst hg
  constructor
  · apply connect_def_ok
    simp [connectBody, initialize_playwright, c1, c2, c3, c4]
  · rfl

/-- Witness for `connect_after_close_ready` on the closed state a completed
`close()` leaves behind. -/
theorem connect_after_close_ready_witness :
    connect ⟨Except.ok 5, Except.ok 6, Except.ok 7, Except.ok 8⟩
        ⟨false, false, false, false⟩ initState =
      Except.ok ⟨some 5, some 6, some 7, some 8⟩ ∧
    allPresent ⟨some 5, some 6, some 7, some 8⟩ = true :=
  connect_after_close_ready ⟨Except.ok 5, Except.ok 6, Except.ok 7, Except.ok 8⟩
    ⟨false, false, false, false⟩ initState 5 6 7 8 rfl rfl rfl rfl rfl

/-! ### Claim C10 -/

/-- Claim C10: the implicit frame condition of the fetch operations — neither
`get_properties` nor `get_page_content` assigns to any of the four handle
fields; whatever the page environment does (success, absence, or raising on
every attempt), the handle state coming back is exactly the one passed in. -/
theorem fetch_frame_condition (cfg : Config) (page : Nat → PageAttempt)
    (a : Nat → ContentAttempt) (s : BMState) (rc : Nat) :
    (get_properties cfg page s rc).2 = s ∧ (get_page_content a s).2 = s := by
  refine ⟨get_properties_state cfg page s rc, ?_⟩
  cases hb : getPageContentBody a s <;> simp [get_page_content, hb]

end Scraper
